import Mathlib

/-!
# Verification of the Rustica certificate-authority server core

A shallow embedding of `rustica/src/server.rs` and
`rustica/src/signing/mod.rs`. Rust `u64` values are modeled as `Nat`
(all values in range); where the source relies on wrapping unsigned
subtraction, the wrap is made explicit modulo `2^64`. External
collaborators (the x509/SSH parsers, the HMAC library, the zstd
encoder, `rcgen`, the signing backends and the authorization backend)
are injected as data or function parameters: each fallible external
call becomes an `Option`/`Except` input so every control path of the
source is represented.
-/

namespace Rustica

/-- Width of a Rust `u64`, used to make wrapping arithmetic explicit. -/
def U64 : Nat := 2 ^ 64

/-- Wrapping unsigned 64-bit subtraction `a - b` (as in a Rust release
build), for `a b < U64`. -/
def wsub (a b : Nat) : Nat := (a + U64 - b) % U64

/-- Cast of a Rust `i64` to `u64` (`as u64`): two's-complement wrap. -/
def i64ToU64 (i : Int) : Nat := (i % (U64 : Int)).toNat

/-- Error taxonomy of the server. Modelled from the spec: the
declaration lives in `rustica/src/error.rs`, which is not among the
verified sources; the variants are those used by `server.rs` and
listed by the spec's error-handling section. `error_code` fields are
modeled symbolically by this type rather than by integer
discriminants. -/
inductive RusticaServerError
  | Success
  | BadRequest
  | BadChallenge
  | TimeExpired
  | BadCertOptions
  | NotAuthorized
  | Unknown
  deriving DecidableEq, Repr

/-- An SSH public key, abstracted to its fingerprint hash
(`key.fingerprint().hash` in the source). -/
structure PublicKey where
  fingerprint : String
  deriving DecidableEq, Repr

/-- The parts of a parsed SSH certificate read by `validate_request`:
the `key_id` (carrying the hex HMAC tag), the subject key and the
signature key. -/
structure ParsedCert where
  key_id : String
  key : PublicKey
  signature_key : PublicKey
  deriving DecidableEq, Repr

/-- Result of `extract_certificate_information`: the CommonName
identities and the peer certificate's notAfter timestamp (an `i64`). -/
structure MtlsCertificateInfo where
  identities : List String
  expiry_timestamp : Int
  deriving DecidableEq, Repr

/-- Validity window for an opportunistically reissued mTLS client
certificate (`CertificateRefreshSettings` in the source). -/
structure CertificateRefreshSettings where
  not_after : Nat
  not_before : Nat
  deriving DecidableEq, Repr

/-- Server configuration read by `validate_request`. -/
structure ValidateSrv where
  require_rustica_proof : Bool
  /-- `srv.challenge_key.pubkey.fingerprint().hash` -/
  challenge_key_fp : String
  expiration_renewal_period : Nat
  validity_length : Nat
  deriving DecidableEq, Repr

/-- The inputs of one `validate_request` call. External parses and
cryptographic verifications are injected as their results: a `none`
or `false` field stands for the corresponding call failing. -/
structure ValidateCtx where
  srv : ValidateSrv
  /-- `peer_certs.get(0)` returned a certificate -/
  peer_present : Bool
  /-- result of `extract_certificate_information` (errors are always
  `NotAuthorized` in the source) -/
  cert_info : Option MtlsCertificateInfo
  /-- `challenge.challenge_time.parse::<u64>()` -/
  challenge_time_parse : Option Nat
  /-- `SystemTime::now().duration_since(UNIX_EPOCH)` in seconds -/
  now : Option Nat
  /-- `challenge.challenge.len()` -/
  challenge_len : Nat
  /-- `Certificate::from_string(&challenge.challenge)` -/
  parsed_certificate : Option ParsedCert
  /-- `hex::decode(&hmac_challenge)` succeeded -/
  hex_decode_ok : Bool
  /-- `hmac::verify(hmac_key, verification, decoded)` succeeded -/
  hmac_verify_ok : Bool
  /-- `PublicKey::from_string(&challenge.pubkey)` -/
  hmac_pubkey : Option PublicKey

/-- The mTLS-reissuance decision of `validate_request`: reissue when
the peer certificate has expired or expires within
`expiration_renewal_period` (the `||` short-circuits, so the unsigned
subtraction is only reached when `time ≤ expiry`). -/
def refreshSettings (srv : ValidateSrv) (time : Nat) (expiry : Int) :
    Option CertificateRefreshSettings :=
  if time > i64ToU64 expiry ∨ i64ToU64 expiry - time < srv.expiration_renewal_period then
    some ⟨time + srv.validity_length, time⟩
  else
    none

/-- `validate_request` from `server.rs`: peer certificate, freshness,
size bound, certificate parse, HMAC, pubkey parse, reissuance hint,
and the challenge-signature policy branch, in source order. -/
def validate_request (c : ValidateCtx) :
    Except RusticaServerError (PublicKey × List String × Option CertificateRefreshSettings) :=
  if ¬ c.peer_present then .error .BadRequest
  else match c.cert_info with
  | none => .error .NotAuthorized
  | some cert_info =>
    match c.challenge_time_parse, c.now with
    | some request_time, some time =>
      if wsub time request_time > 5 then .error .TimeExpired
      else if c.challenge_len > 1024 then .error .Unknown
      else match c.parsed_certificate with
      | none => .error .BadChallenge
      | some parsed_certificate =>
        if ¬ c.hex_decode_ok then .error .BadChallenge
        else if ¬ c.hmac_verify_ok then .error .BadChallenge
        else match c.hmac_pubkey with
        | none => .error .BadChallenge
        | some hmac_ssh_pubkey =>
          let certificate_refresh_settings :=
            refreshSettings c.srv time cert_info.expiry_timestamp
          if ¬ c.srv.require_rustica_proof then
            if parsed_certificate.signature_key.fingerprint ≠ c.srv.challenge_key_fp then
              .error .BadChallenge
            else
              .ok (hmac_ssh_pubkey, cert_info.identities, certificate_refresh_settings)
          else
            if parsed_certificate.key.fingerprint ≠ parsed_certificate.signature_key.fingerprint then
              .error .BadChallenge
            else if parsed_certificate.key.fingerprint ≠ hmac_ssh_pubkey.fingerprint then
              .error .BadChallenge
            else
              .ok (hmac_ssh_pubkey, cert_info.identities, certificate_refresh_settings)
    | _, _ => .error .Unknown

/-- Concrete scenario for the C4 counterexample: the clock reads 0,
the (attacker-controlled) challenge time parses to `2^64 - 1`, and all
other validation steps succeed with proof-of-possession disabled. -/
def c4cexCtx : ValidateCtx where
  srv := { require_rustica_proof := false, challenge_key_fp := "SHA256:challenge"
           expiration_renewal_period := 0, validity_length := 3600 }
  peer_present := true
  cert_info := some ⟨["alice@example"], 0x7FFFFFFFFFFFFFFF⟩
  challenge_time_parse := some (2 ^ 64 - 1)
  now := some 0
  challenge_len := 100
  parsed_certificate := some ⟨"deadbeef", ⟨"SHA256:user"⟩, ⟨"SHA256:challenge"⟩⟩
  hex_decode_ok := true
  hmac_verify_ok := true
  hmac_pubkey := some ⟨"SHA256:user"⟩

/-!
## The allowed-signers rate limiter (`is_rate_limited`) and cache
-/

/-- The bounded LRU cache of the `lru` crate, modeled as an
association list in most-recently-used-first order together with its
capacity. -/
structure Lru where
  entries : List (String × Nat)
  cap : Nat
  deriving DecidableEq, Repr

/-- `LruCache::push(k, v)`: if `k` is already present, replace its
value (moving it to the front) and return the previous entry for `k`;
otherwise, if the cache is at capacity, evict and return the
least-recently-used entry; otherwise insert and return `None`. -/
def Lru.push (c : Lru) (k : String) (v : Nat) : Option (String × Nat) × Lru :=
  match c.entries.find? (fun e => e.1 == k) with
  | some old => (some old, ⟨(k, v) :: c.entries.filter (fun e => ¬ e.1 == k), c.cap⟩)
  | none =>
    if c.cap ≤ c.entries.length then
      (c.entries.getLast?, ⟨(k, v) :: c.entries.dropLast, c.cap⟩)
    else
      (none, ⟨(k, v) :: c.entries, c.cap⟩)

/-- Value stored for a key, if any (`LruCache::peek`). -/
def Lru.lookup (c : Lru) (k : String) : Option Nat :=
  (c.entries.find? (fun e => e.1 == k)).map (·.2)

/-- `is_rate_limited` from `server.rs`: push
`identities ↦ current_time + rate_limit_cooldown` into the limiter;
`None` or an eviction of an unrelated key means not rate-limited,
otherwise rate-limited iff `current_time` is before the stored
deadline. Returns the decision together with the updated limiter
(the source mutates the LRU behind a mutex). -/
def is_rate_limited (rate_limiter : Lru) (rate_limit_cooldown : Nat)
    (identities : String) (current_time : Nat) : Bool × Lru :=
  let pushed := rate_limiter.push identities (current_time + rate_limit_cooldown)
  match pushed.1 with
  | none => (false, pushed.2)
  | some removed_entry =>
    if removed_entry.1 ≠ identities then (false, pushed.2)
    else (decide (current_time < removed_entry.2), pushed.2)

/-!
## The allowed-signers endpoint
-/

/-- The shared cache guarded by the read-write lock
(`AllowedSignersCache` in the source). Bytes are modeled as
`List Nat`. -/
structure AllowedSignersCache where
  compressed_allowed_signers : List Nat
  expiry_timestamp : Nat
  deriving DecidableEq, Repr

/-- A transport-level result: a gRPC `Status` error, an inline reply,
or a process panic (for `unwrap`/`expect` on error paths). -/
inductive Outcome (α : Type) where
  | panic
  | status
  | ok (a : α)
  deriving DecidableEq, Repr

/-- Rust's `Vec::join(sep)` on strings: separator between elements,
none trailing. -/
def joinWith (sep : String) : List String → String
  | [] => ""
  | [s] => s
  | s :: rest => s ++ sep ++ joinWith sep rest

/-- The newline-joined `"{identity} {pubkey}"` rendering of the
authorizer's allowed signers (the `map`/`join("\n")` in the source:
no trailing newline). -/
def renderAllowedSigners (allowed_signers : List (String × String)) : String :=
  joinWith "\n"
    (allowed_signers.map (fun allowed_signer => allowed_signer.1 ++ " " ++ allowed_signer.2))

/-- Inputs of one `allowed_signers` call. The identity extraction,
clock, authorizer call and zstd compression are injected; the three
zstd failure exits (encoder construction, `write_all`, `finish`) are
folded into `compress` returning `none`. -/
structure AllowedSignersCtx where
  remote_addr_present : Bool
  peer_certs_present : Bool
  first_peer_present : Bool
  cert_info : Option MtlsCertificateInfo
  clock : Option Nat
  rate_limiter : Lru
  rate_limit_cooldown : Nat
  cache : AllowedSignersCache
  cache_validity_length : Nat
  get_allowed_signers : Except Unit (List (String × String))
  compress : String → Option (List Nat)

/-- The `allowed_signers` handler from `server.rs`, returning the
response plus the updated rate limiter and cache. The source's
double-checked locking (read-lock check, then write-lock re-check)
collapses to two identical sequential checks in this
single-interleaving model; both are kept. -/
def allowed_signers (c : AllowedSignersCtx) :
    Outcome (List Nat) × Lru × AllowedSignersCache :=
  if ¬ c.remote_addr_present then (.status, c.rate_limiter, c.cache)
  else if ¬ c.peer_certs_present then (.status, c.rate_limiter, c.cache)
  else if ¬ c.first_peer_present then (.status, c.rate_limiter, c.cache)
  else match c.cert_info with
  | none => (.status, c.rate_limiter, c.cache)
  | some cert_info =>
    let mtls_identities := joinWith "," cert_info.identities
    match c.clock with
    | none => (.status, c.rate_limiter, c.cache)
    | some current_time =>
      let limited := is_rate_limited c.rate_limiter c.rate_limit_cooldown
        mtls_identities current_time
      if limited.1 then (.status, limited.2, c.cache)
      else if current_time ≤ c.cache.expiry_timestamp then
        (.ok c.cache.compressed_allowed_signers, limited.2, c.cache)
      else if current_time ≤ c.cache.expiry_timestamp then
        (.ok c.cache.compressed_allowed_signers, limited.2, c.cache)
      else match c.get_allowed_signers with
      | .error _ => (.status, limited.2, c.cache)
      | .ok response =>
        match c.compress (renderAllowedSigners response) with
        | none => (.status, limited.2, c.cache)
        | some compressed_allowed_signers =>
          let cache' : AllowedSignersCache :=
            ⟨compressed_allowed_signers, current_time + c.cache_validity_length⟩
          (.ok cache'.compressed_allowed_signers, limited.2, cache')

/-!
## The signing registry (`signing/mod.rs`)
-/

/-- `SigningError` from `signing/mod.rs`. -/
inductive SigningError where
  | AccessError (msg : String)
  | SigningFailure
  | ParsingError
  | UnknownAuthority (authority : String)
  | DuplicatedKey (a1 a2 : String)
  | IdenticalUserAndHostKey (authority : String)
  | SignerDoesNotHaveSSHKeys
  | SignerDoesNotAllRequiredSSHKeys
  deriving DecidableEq, Repr

/-- The SSH key fingerprints a converted backend exposes:
`signer.get_signer_public_key(CertType::User / CertType::Host)`
mapped through `fingerprint().hash`. `into_signer` conversion
failures abort the whole loop identically for every claim considered
here, so backends are given already converted. -/
structure SignerKeys where
  user_hash : Option String
  host_hash : Option String
  deriving DecidableEq, Repr

/-- All SSH public-key fingerprints of one backend. -/
def fps (s : SignerKeys) : List String :=
  s.user_hash.toList ++ s.host_hash.toList

/-- `HashMap::get` on the accumulating `public_keys` map
(fingerprint → authority name), modeled as an association list. -/
def pkGet : List (String × String) → String → Option String
  | [], _ => none
  | (k, v) :: rest, key => if k == key then some v else pkGet rest key

/-- The per-key body of the startup loop: if the fingerprint is
already known, fail with `DuplicatedKey(current, existing)`;
otherwise record it. -/
def recordKey (name : String) (public_keys : List (String × String)) :
    Option String → Except SigningError (List (String × String))
  | none => .ok public_keys
  | some hash =>
    match pkGet public_keys hash with
    | some existing => .error (.DuplicatedKey name existing)
    | none => .ok ((hash, name) :: public_keys)

/-- The identical-user-and-host-key test of the startup loop
(applies only when both keys are configured). -/
def isIdentical (s : SignerKeys) : Bool :=
  match s.user_hash, s.host_hash with
  | some user_hash, some host_hash => user_hash == host_hash
  | _, _ => false

/-- The body of `convert_to_signing_mechanism`'s `for` loop over the
configured authorities, carrying the `public_keys` map and the
`converted_authorities` accumulator. -/
def convertLoop : List (String × SignerKeys) → List (String × String) →
    List (String × SignerKeys) → Except SigningError (List (String × SignerKeys))
  | [], _, converted_authorities => .ok converted_authorities
  | (name, signer) :: rest, public_keys, converted_authorities =>
    if isIdentical signer then .error (.IdenticalUserAndHostKey name)
    else
      match recordKey name public_keys signer.user_hash with
      | .error e => .error e
      | .ok pks1 =>
        match recordKey name pks1 signer.host_hash with
        | .error e => .error e
        | .ok pks2 => convertLoop rest pks2 (converted_authorities ++ [(name, signer)])

/-- The signing mechanism produced on success. -/
structure SigningMechanism where
  default_authority : String
  authorities : List (String × SignerKeys)
  deriving DecidableEq, Repr

/-- `SigningConfiguration::convert_to_signing_mechanism` from
`signing/mod.rs` (the `HashMap` iteration order is a parameter: the
backends are given as a list). -/
def convert_to_signing_mechanism (default_authority : String)
    (authority_configurations : List (String × SignerKeys)) :
    Except SigningError SigningMechanism :=
  match convertLoop authority_configurations [] [] with
  | .error e => .error e
  | .ok authorities => .ok ⟨default_authority, authorities⟩

/-- C7 witness scenario: fresh limiter, expired cache, two allowed
signers, compression modeled as taking the payload length. -/
def c7wCtx : AllowedSignersCtx where
  remote_addr_present := true
  peer_certs_present := true
  first_peer_present := true
  cert_info := some ⟨["carol@example"], 0⟩
  clock := some 200
  rate_limiter := ⟨[], 16⟩
  rate_limit_cooldown := 30
  cache := ⟨[1, 2, 3], 100⟩
  cache_validity_length := 60
  get_allowed_signers := .ok [("a", "k1"), ("b", "k2")]
  compress := fun s => some [s.length]

/-!
## The challenge and certificate endpoints
-/

/-- SSH certificate type (`sshcerts::ssh::CertType`). -/
inductive CertType where
  | User
  | Host
  deriving DecidableEq, Repr

/-- The request's `cert_type` discriminant: `1 => User`, `2 => Host`,
anything else is rejected with `BadCertOptions`. -/
def certTypeOfNat : Nat → Option CertType
  | 1 => some .User
  | 2 => some .Host
  | _ => none

/-- The authorization backend's result, with the fields `server.rs`
reads from it (`serial`, `principals`, validity window, `extensions`,
`force_command`, `force_source_ip`, and the backend-chosen
`authority` used for the signing dispatch). -/
structure Authorization where
  serial : Nat
  principals : List String
  valid_after : Nat
  valid_before : Nat
  extensions : List (String × String)
  force_command : Option String
  force_source_ip : Bool
  authority : String
  deriving DecidableEq, Repr

/-- The SSH certificate assembled by the `Certificate::builder` chain
(subject key, type, CA key, and the authorization-derived fields).
The signature itself is outside the model. -/
structure SshCertificate where
  key : PublicKey
  cert_type : CertType
  signature_key : PublicKey
  serial : Nat
  key_id : String
  principals : List String
  valid_after : Nat
  valid_before : Nat
  critical_options : List (String × String)
  extensions : List (String × String)
  deriving DecidableEq, Repr

/-- Debug rendering of an error (`format!("{:?}", e)`). -/
def RusticaServerError.debugName : RusticaServerError → String
  | .Success => "Success"
  | .BadRequest => "BadRequest"
  | .BadChallenge => "BadChallenge"
  | .TimeExpired => "TimeExpired"
  | .BadCertOptions => "BadCertOptions"
  | .NotAuthorized => "NotAuthorized"
  | .Unknown => "Unknown"

/-- The gRPC `CertificateResponse`. `error_code` is kept symbolic (see
`RusticaServerError`). -/
structure CertificateResponse where
  certificate : String
  error : String
  error_code : RusticaServerError
  new_client_certificate : String
  new_client_key : String
  deriving DecidableEq, Repr

/-- `create_response` from `server.rs`: an inline error reply with an
empty certificate and no client-certificate material. -/
def create_response (e : RusticaServerError) : CertificateResponse :=
  { certificate := ""
    error := e.debugName
    error_code := e
    new_client_certificate := ""
    new_client_key := "" }

/-- The `rcgen` certificate parameters the reissuance branch
manipulates. The distinguished name is a list of (type, value)
pushes. -/
structure CertificateParams where
  subject_alt_names : List String
  not_before : Nat
  not_after : Nat
  distinguished_name : List (String × String)
  deriving DecidableEq, Repr

/-- Modelled from the `rcgen` crate: `CertificateParams::new(names)`
fills `subject_alt_names` from its argument (each name becoming a
SAN) and leaves the remaining fields at their defaults. -/
def CertificateParams.new (subject_alt_names : List String) : CertificateParams :=
  { subject_alt_names := subject_alt_names
    not_before := 0
    not_after := 0
    distinguished_name := [] }

/-- `rcgen::Certificate`, which retains the parameters it was built
from. -/
structure RcgenCertificate where
  params : CertificateParams
  deriving DecidableEq, Repr

/-- Lines 614-623 of `server.rs`: parameters for the reissued mTLS
client certificate — `CertificateParams::new(mtls_identities)`,
validity from the refresh settings, and a pushed CommonName equal to
`mtls_identities.get(0)` (empty when absent). -/
def mintClientParams (mtls_identities : List String)
    (settings : CertificateRefreshSettings) : CertificateParams :=
  let params := CertificateParams.new mtls_identities
  { params with
    not_before := settings.not_before
    not_after := settings.not_after
    distinguished_name := params.distinguished_name ++
      [("CommonName", mtls_identities.headD "")] }

/-- Lines 561-568 of `server.rs`: the critical options map —
`force-command` when the authorization carries one, `source-address`
of the caller when `force_source_ip` is set. -/
def criticalOptions (authorization : Authorization) (remote_ip : String) :
    List (String × String) :=
  (match authorization.force_command with
    | some cmd => [("force-command", cmd)]
    | none => []) ++
  (if authorization.force_source_ip then [("source-address", remote_ip)] else [])

/-- Lines 570-578 of `server.rs`: the `Certificate::builder` chain
populating the certificate from the authorization result. -/
def composeSshCert (ssh_pubkey : PublicKey) (req_cert_type : CertType)
    (ca_cert : PublicKey) (authorization : Authorization)
    (critical_options : List (String × String)) (fingerprint : String) :
    SshCertificate :=
  { key := ssh_pubkey
    cert_type := req_cert_type
    signature_key := ca_cert
    serial := authorization.serial
    key_id := "Rustica-JITC-for-" ++ fingerprint
    principals := authorization.principals
    valid_after := authorization.valid_after
    valid_before := authorization.valid_before
    critical_options := critical_options
    extensions := authorization.extensions }

/-- The request fields of the `certificate` endpoint. -/
structure CertificateRequest where
  cert_type : Nat
  key_id : String
  principals : List String
  servers : List String
  valid_after : Nat
  valid_before : Nat
  deriving DecidableEq, Repr

/-- Inputs of one `certificate` call. The challenge validation result
and every external call (clock, signer registry lookups, the
authorization backend, the signing backend, serialization and the
re-parse self-check, and the `rcgen` client-certificate machinery)
are injected; `validate_request` itself is modeled separately. -/
structure CertCtx where
  remote_addr_present : Bool
  /-- `remote_addr.ip().to_string()` -/
  remote_ip : String
  peer_certs_present : Bool
  challenge_present : Bool
  validate : Except RusticaServerError
    (PublicKey × List String × Option CertificateRefreshSettings)
  clock : Option Nat
  request : CertificateRequest
  default_authority : String
  get_signer_public_key : String → CertType → Except Unit PublicKey
  authorize : Except RusticaServerError Authorization
  /-- `Certificate::builder(...)` construction succeeded -/
  builder_ok : Bool
  /-- `self.signer.sign(authority, cert)` -/
  sign : String → SshCertificate → Except Unit SshCertificate
  /-- `format!("{}", cert)` -/
  serialize : SshCertificate → String
  /-- `Certificate::from_string(&serialized)` succeeded -/
  reparse_ok : String → Bool
  /-- `get_client_certificate_authority(&client_authority.authority)` -/
  get_client_certificate_authority : Except Unit (Option Unit)
  /-- `rcgen::Certificate::from_params` (unwrapped in the source) -/
  from_params : CertificateParams → Option RcgenCertificate
  serialize_private_key_pem : RcgenCertificate → String
  /-- `serialize_pem_with_signer(ca)` (unwrapped in the source) -/
  serialize_pem_with_signer : RcgenCertificate → Option String

/-- The `certificate` handler from `server.rs`, in source order:
envelope checks, challenge validation, validity-window and cert-type
checks, authority resolution, signer-key lookup, authorization,
certificate composition, signing (dispatched on the
authorization-chosen authority), the re-parse self-check, and the
opportunistic mTLS client-certificate reissuance. -/
def certificate (c : CertCtx) : Outcome CertificateResponse :=
  if ¬ c.remote_addr_present then .status
  else if ¬ c.challenge_present ∨ ¬ c.peer_certs_present then
    .ok (create_response .BadRequest)
  else match c.validate with
  | .error e => .ok (create_response e)
  | .ok (ssh_pubkey, mtls_identities, mtls_refresh) =>
    let current_timestamp := match c.clock with
      | some ts => ts
      | none => 0xFFFFFFFFFFFFFFFF
    if c.request.valid_before < c.request.valid_after ∨
        current_timestamp > c.request.valid_before then
      .ok (create_response .BadCertOptions)
    else match certTypeOfNat c.request.cert_type with
    | none => .ok (create_response .BadCertOptions)
    | some req_cert_type =>
      let authority :=
        if c.request.key_id = "" then c.default_authority else c.request.key_id
      let fingerprint := ssh_pubkey.fingerprint
      match c.get_signer_public_key authority req_cert_type with
      | .error _ => .ok (create_response .NotAuthorized)
      | .ok ca_cert =>
        match c.authorize with
        | .error e => .ok (create_response e)
        | .ok authorization =>
          let critical_options := criticalOptions authorization c.remote_ip
          if ¬ c.builder_ok then .status
          else
            match c.sign authorization.authority
              (composeSshCert ssh_pubkey req_cert_type ca_cert authorization
                critical_options fingerprint) with
            | .error _ => .ok (create_response .BadChallenge)
            | .ok signed_cert =>
              let serialized_cert := c.serialize signed_cert
              if ¬ c.reparse_ok serialized_cert then
                .ok (create_response .BadCertOptions)
              else
                let reply : CertificateResponse :=
                  { certificate := serialized_cert
                    error := ""
                    error_code := .Success
                    new_client_certificate := ""
                    new_client_key := "" }
                match mtls_refresh, c.get_client_certificate_authority with
                | some settings, .ok (some _) =>
                  match c.from_params (mintClientParams mtls_identities settings) with
                  | none => .panic
                  | some new_certificate =>
                    match c.serialize_pem_with_signer new_certificate with
                    | none => .panic
                    | some pem =>
                      .ok { reply with
                        new_client_key := c.serialize_private_key_pem new_certificate
                        new_client_certificate := pem }
                | _, _ => .ok reply

/-- The gRPC `ChallengeResponse`. -/
structure ChallengeResponse where
  time : String
  challenge : String
  no_signature_required : Bool
  deriving DecidableEq, Repr

/-- Inputs of one `challenge` call, externals injected as for
`certificate`. `cert_string` is the serialized challenge certificate
(`format!("{}", cert)`). -/
structure ChallengeCtx where
  remote_addr_present : Bool
  peer_certs_present : Bool
  first_peer_present : Bool
  cert_info : Option MtlsCertificateInfo
  /-- `request.pubkey.len()` -/
  pubkey_len : Nat
  /-- `PublicKey::from_string(&request.pubkey)` -/
  ssh_pubkey : Option PublicKey
  /-- `SystemTime::now().duration_since(UNIX_EPOCH)`: the source calls
  `.expect(...)` on this, so `none` is a panic -/
  clock : Option Nat
  require_rustica_proof : Bool
  builder_ok : Bool
  sign_ok : Bool
  cert_string : String

/-- The `challenge` handler from `server.rs`: envelope checks,
identity extraction, pubkey size bound and parse, the clock read
(`expect`), and the challenge-certificate build and sign. -/
def challenge (c : ChallengeCtx) : Outcome ChallengeResponse :=
  if ¬ c.remote_addr_present then .status
  else if ¬ c.peer_certs_present then .status
  else if ¬ c.first_peer_present then .status
  else match c.cert_info with
  | none => .status
  | some _ =>
    if c.pubkey_len > 1024 then .status
    else match c.ssh_pubkey with
    | none => .status
    | some _ =>
      match c.clock with
      | none => .panic
      | some timestamp =>
        if ¬ c.builder_ok then .status
        else if ¬ c.sign_ok then .status
        else .ok { time := toString timestamp
                   challenge := c.cert_string
                   no_signature_required := !c.require_rustica_proof }

/-- A fully successful issuance context shared by the concrete
scenarios below; individual claims override single fields. -/
def baseCertCtx : CertCtx where
  remote_addr_present := true
  remote_ip := "203.0.113.7"
  peer_certs_present := true
  challenge_present := true
  validate := .ok (⟨"SHA256:user"⟩, ["alice@example"], none)
  clock := some 1500
  request := { cert_type := 1, key_id := "", principals := ["alice"], servers := []
               valid_after := 1000, valid_before := 2000 }
  default_authority := "default"
  get_signer_public_key := fun _ _ => .ok ⟨"SHA256:ca"⟩
  authorize := .ok { serial := 42, principals := ["alice"], valid_after := 1000
                     valid_before := 2000, extensions := [("permit-pty", "")]
                     force_command := none, force_source_ip := false
                     authority := "backend" }
  builder_ok := true
  sign := fun a cert => if a = "backend" then .ok cert else .error ()
  serialize := fun cert => "SSHCERT:" ++ cert.key_id
  reparse_ok := fun _ => true
  get_client_certificate_authority := .ok none
  from_params := fun p => some ⟨p⟩
  serialize_private_key_pem := fun _ => "KEYPEM"
  serialize_pem_with_signer := fun _ => some "CERTPEM"

/-- The successful reply produced by `baseCertCtx`. -/
def baseSuccessResp : CertificateResponse where
  certificate := "SSHCERT:Rustica-JITC-for-SHA256:user"
  error := ""
  error_code := .Success
  new_client_certificate := ""
  new_client_key := ""

/-- `baseCertCtx` with a failing signing backend. -/
def c10wCtx : CertCtx := { baseCertCtx with sign := fun _ _ => .error () }

/-- `baseCertCtx` in the reissuance configuration: validation returned
refresh settings and the client-authority CA exists. -/
def c8cexCtx : CertCtx :=
  { baseCertCtx with
    validate := .ok (⟨"SHA256:user"⟩, ["alice@example"],
      some { not_after := 1700003600, not_before := 1700000000 })
    get_client_certificate_authority := .ok (some ()) }

/-- The challenge context of the spec's happy path, with the clock
injectable. -/
def baseChallengeCtx : ChallengeCtx where
  remote_addr_present := true
  peer_certs_present := true
  first_peer_present := true
  cert_info := some ⟨["alice@example"], 1700086400⟩
  pubkey_len := 127
  ssh_pubkey := some ⟨"SHA256:user"⟩
  clock := some 1700000000
  require_rustica_proof := false
  builder_ok := true
  sign_ok := true
  cert_string := "CHALLENGECERT"

/-!
## Theorems
-/

/-- C1: with `require_rustica_proof = true`, `validate_request`
succeeds only if the parsed challenge certificate's subject-key
fingerprint equals its signature-key fingerprint and that fingerprint
equals the HMAC-attested pubkey's fingerprint; whenever every earlier
validation step passes but those fingerprints mismatch, it returns
`BadChallenge`. -/
theorem c1_proof_of_possession (c : ValidateCtx)
    (hproof : c.srv.require_rustica_proof = true) :
    (∀ pc pk ids rs, c.parsed_certificate = some pc →
      validate_request c = .ok (pk, ids, rs) →
      pc.key.fingerprint = pc.signature_key.fingerprint ∧
      pc.key.fingerprint = pk.fingerprint) ∧
    (∀ ci rt t pc pk,
      c.peer_present = true → c.cert_info = some ci →
      c.challenge_time_parse = some rt → c.now = some t →
      wsub t rt ≤ 5 → c.challenge_len ≤ 1024 →
      c.parsed_certificate = some pc → c.hex_decode_ok = true →
      c.hmac_verify_ok = true → c.hmac_pubkey = some pk →
      ¬ (pc.key.fingerprint = pc.signature_key.fingerprint ∧
         pc.key.fingerprint = pk.fingerprint) →
      validate_request c = .error .BadChallenge) := by
  constructor
  · intro pc pk ids rs hpc h
    unfold validate_request at h
    rw [hpc] at h
    repeat' split at h
    any_goals exact Except.noConfusion h
    all_goals
      simp only [Except.ok.injEq, Prod.mk.injEq] at h
      obtain ⟨rfl, -, -⟩ := h
      simp_all
  · intro ci rt t pc pk hpeer hci hrt ht hfresh hlen hpc hhex hhmac hpk hne
    unfold validate_request
    rw [hpeer, hci, hrt, ht, hpc, hpk]
    simp only [hhex, hhmac, hproof, not_true, if_false, ite_false,
      if_neg (by omega : ¬ wsub t rt > 5), if_neg (by omega : ¬ c.challenge_len > 1024)]
    by_cases h1 : pc.key.fingerprint = pc.signature_key.fingerprint
    · have h2 : pc.key.fingerprint ≠ pk.fingerprint := fun h2 => hne ⟨h1, h2⟩
      have h2s : pc.signature_key.fingerprint ≠ pk.fingerprint := h1 ▸ h2
      simp [h1, h2, h2s]
    · simp [h1]

/-- C1 witness: the spec's scenario S4 — proof-of-possession enabled
and the challenge certificate returned unmodified, still signed by the
server's challenge key — is rejected with `BadChallenge`. -/
theorem c1_witness :
    validate_request
      { srv := { require_rustica_proof := true, challenge_key_fp := "SHA256:challenge"
                 expiration_renewal_period := 0, validity_length := 3600 }
        peer_present := true
        cert_info := some ⟨["alice@example"], 0x7FFFFFFFFFFFFFFF⟩
        challenge_time_parse := some 5
        now := some 7
        challenge_len := 100
        parsed_certificate := some ⟨"deadbeef", ⟨"SHA256:user"⟩, ⟨"SHA256:challenge"⟩⟩
        hex_decode_ok := true
        hmac_verify_ok := true
        hmac_pubkey := some ⟨"SHA256:user"⟩ } = .error .BadChallenge := by
  exact (c1_proof_of_possession _ rfl).2 ⟨["alice@example"], 0x7FFFFFFFFFFFFFFF⟩ 5 7
    ⟨"deadbeef", ⟨"SHA256:user"⟩, ⟨"SHA256:challenge"⟩⟩ ⟨"SHA256:user"⟩
    rfl rfl rfl rfl (by decide) (by decide) rfl rfl rfl rfl (by decide)

/-- C4 counterexample: a `challenge_time` strictly greater than `now`
is not always rejected — with `now = 0` and
`challenge_time = 2^64 - 1` the wrapping subtraction yields `1 ≤ 5`
and validation succeeds. -/
theorem c4_counterexample :
    c4cexCtx.now = some 0 ∧ c4cexCtx.challenge_time_parse = some (2 ^ 64 - 1) ∧
    0 < 2 ^ 64 - 1 ∧
    validate_request c4cexCtx =
      .ok (⟨"SHA256:user"⟩, ["alice@example"], none) := by
  refine ⟨rfl, rfl, by norm_num, ?_⟩
  rfl

/-- C4 (amended): when the peer certificate and both times parse, the
freshness check fails with `TimeExpired` exactly when
`now - challenge_time`, computed as wrapping unsigned 64-bit
subtraction, exceeds 5; and provided `now ≥ 5`, a `challenge_time`
strictly greater than `now` wraps to a value greater than 5 and the
request is rejected. -/
theorem c4_freshness (c : ValidateCtx) (ci : MtlsCertificateInfo) (rt t : Nat)
    (hpeer : c.peer_present = true) (hci : c.cert_info = some ci)
    (hrt : c.challenge_time_parse = some rt) (ht : c.now = some t)
    (hrt64 : rt < U64) (ht64 : t < U64) :
    (validate_request c = .error .TimeExpired ↔ wsub t rt > 5) ∧
    (5 ≤ t → t < rt → validate_request c = .error .TimeExpired) := by
  have hw : wsub t rt > 5 → validate_request c = .error .TimeExpired := by
    intro hgt
    unfold validate_request
    rw [hpeer, hci, hrt, ht]
    simp [hgt]
  refine ⟨⟨?_, hw⟩, fun h5 hlt => hw ?_⟩
  · intro h
    by_contra hgt
    unfold validate_request at h
    rw [hpeer, hci, hrt, ht] at h
    simp only [not_true, if_false, ite_false, if_neg hgt] at h
    split at h
    · exact absurd h (by simp)
    · split at h
      · exact absurd h (by simp)
      · split at h
        · exact absurd h (by simp)
        · split at h
          · exact absurd h (by simp)
          · split at h
            · exact absurd h (by simp)
            · split at h
              · split at h
                · exact absurd h (by simp)
                · exact absurd h (by simp)
              · split at h
                · exact absurd h (by simp)
                · split at h
                  · exact absurd h (by simp)
                  · exact absurd h (by simp)
  · unfold wsub
    have h1 : t + U64 - rt < U64 := by unfold U64 at *; omega
    have h2 : 5 < t + U64 - rt := by unfold U64 at *; omega
    rw [Nat.mod_eq_of_lt h1]
    exact h2

/-- C4 witness: `now = 10`, `challenge_time = 2`, so the wrapped
difference is 8 > 5 and validation fails with `TimeExpired`. -/
theorem c4_witness :
    validate_request { c4cexCtx with challenge_time_parse := some 2, now := some 10 } =
      .error .TimeExpired := by
  exact ((c4_freshness _ ⟨["alice@example"], 0x7FFFFFFFFFFFFFFF⟩ 2 10
    rfl rfl rfl rfl (by norm_num [U64]) (by norm_num [U64])).1).2 (by decide)

/-- The decision of `is_rate_limited` never depends on the updated
limiter: the returned limiter is always the pushed one. -/
theorem is_rate_limited_snd (l : Lru) (cooldown : Nat) (ident : String) (now : Nat) :
    (is_rate_limited l cooldown ident now).2 = (l.push ident (now + cooldown)).2 := by
  unfold is_rate_limited
  rcases hp : (l.push ident (now + cooldown)).1 with - | ⟨k, v⟩
  · simp [hp]
  · by_cases hk : k = ident <;> simp [hp, hk]

/-- After a push, the pushed key maps to the pushed value. -/
theorem Lru.lookup_push (c : Lru) (k : String) (v : Nat) :
    (c.push k v).2.lookup k = some v := by
  unfold Lru.push Lru.lookup
  split
  · simp [List.find?]
  · split <;> simp [List.find?]

/-- C6: `is_rate_limited` returns `false` when the push returns
nothing or evicts an entry of an unrelated key; otherwise it returns
`true` exactly when `now` is strictly before the previously stored
deadline; and in every case — including a denial — it leaves the
limiter mapping the identity to `now + rate_limit_cooldown`. -/
theorem c6_rate_limiter (l : Lru) (cooldown : Nat) (ident : String) (now : Nat) :
    (∀ l', l.push ident (now + cooldown) = (none, l') →
      is_rate_limited l cooldown ident now = (false, l')) ∧
    (∀ k v l', l.push ident (now + cooldown) = (some (k, v), l') → k ≠ ident →
      is_rate_limited l cooldown ident now = (false, l')) ∧
    (∀ v l', l.push ident (now + cooldown) = (some (ident, v), l') →
      ((is_rate_limited l cooldown ident now).1 = true ↔ now < v)) ∧
    (is_rate_limited l cooldown ident now).2.lookup ident = some (now + cooldown) := by
  refine ⟨?_, ?_, ?_, ?_⟩
  · intro l' hp
    simp [is_rate_limited, hp]
  · intro k v l' hp hk
    simp [is_rate_limited, hp, hk]
  · intro v l' hp
    simp [is_rate_limited, hp]
  · rw [is_rate_limited_snd]
    exact Lru.lookup_push l ident (now + cooldown)

/-- C6 witness: identity `bob@example` has deadline 100 stored; at
`now = 50 < 100` with cooldown 30 the caller is rate-limited, yet the
deadline is refreshed to 80. -/
theorem c6_witness :
    is_rate_limited ⟨[("bob@example", 100)], 16⟩ 30 "bob@example" 50 =
      (true, ⟨[("bob@example", 80)], 16⟩) ∧
    (is_rate_limited ⟨[("bob@example", 100)], 16⟩ 30 "bob@example" 50).2.lookup
      "bob@example" = some 80 := by
  have h := c6_rate_limiter ⟨[("bob@example", 100)], 16⟩ 30 "bob@example" 50
  refine ⟨?_, h.2.2.2⟩
  have hb := (h.2.2.1 100 ⟨[("bob@example", 80)], 16⟩ (by decide)).mpr (by decide)
  have hs := is_rate_limited_snd ⟨[("bob@example", 100)], 16⟩ 30 "bob@example" 50
  exact Prod.ext hb (by rw [hs]; decide)

/-- C7: for a non-rate-limited call, a cache hit (`now ≤ expiry`)
returns the cached compressed bytes with the cache unchanged; a miss
compresses the newline-joined `"{identity} {pubkey}"` rendering (no
trailing newline), stores it with expiry `now + cache_validity_length`
and returns exactly those bytes. -/
theorem c7_allowed_signers_cache (c : AllowedSignersCtx) (ci : MtlsCertificateInfo)
    (now : Nat)
    (hr : c.remote_addr_present = true) (hp : c.peer_certs_present = true)
    (hf : c.first_peer_present = true) (hci : c.cert_info = some ci)
    (hclock : c.clock = some now)
    (hlim : (is_rate_limited c.rate_limiter c.rate_limit_cooldown
      (joinWith "," ci.identities) now).1 = false) :
    (now ≤ c.cache.expiry_timestamp →
      allowed_signers c = (.ok c.cache.compressed_allowed_signers,
        (is_rate_limited c.rate_limiter c.rate_limit_cooldown
          (joinWith "," ci.identities) now).2, c.cache)) ∧
    (¬ now ≤ c.cache.expiry_timestamp →
      ∀ signers bytes, c.get_allowed_signers = .ok signers →
        c.compress (renderAllowedSigners signers) = some bytes →
        allowed_signers c = (.ok bytes,
          (is_rate_limited c.rate_limiter c.rate_limit_cooldown
            (joinWith "," ci.identities) now).2,
          ⟨bytes, now + c.cache_validity_length⟩)) ∧
    (∀ i p rest, renderAllowedSigners ((i, p) :: rest) =
      i ++ " " ++ p ++ (if rest = [] then "" else "\n" ++ renderAllowedSigners rest)) ∧
    renderAllowedSigners [] = "" := by
  refine ⟨?_, ?_, ?_, rfl⟩
  · intro hhit
    simp [allowed_signers, hr, hp, hf, hci, hclock, hlim, hhit]
  · intro hmiss signers bytes hs hb
    simp [allowed_signers, hr, hp, hf, hci, hclock, hlim, hmiss, hs, hb]
  · intro i p rest
    cases rest with
    | nil => simp [renderAllowedSigners, joinWith]
    | cons x xs => simp [renderAllowedSigners, joinWith, String.append_assoc]

/-- `pkGet` on a freshly recorded key. -/
theorem pkGet_cons (k n f : String) (pks : List (String × String)) :
    pkGet ((k, n) :: pks) f = if k = f then some n else pkGet pks f := by
  simp [pkGet]

/-- Absorbing the freshly recorded fingerprints `ks` into the
accumulated `public_keys` map: the remaining-loop success condition
with the extended map equals the success condition for the whole
prefix with the original map. -/
theorem step_iff (ks J : List String) (pks pks2 : List (String × String))
    (hpks2 : ∀ f, pkGet pks2 f = none ↔ (f ∉ ks ∧ pkGet pks f = none))
    (hksnd : ks.Nodup) (hksnone : ∀ f ∈ ks, pkGet pks f = none) :
    ((J.Nodup ∧ ∀ f ∈ J, pkGet pks2 f = none) ↔
      ((ks ++ J).Nodup ∧ ∀ f ∈ ks ++ J, pkGet pks f = none)) := by
  constructor
  · rintro ⟨hJ, h2⟩
    refine ⟨List.nodup_append.mpr ⟨hksnd, hJ, fun a ha haJ => ?_⟩, fun f hf => ?_⟩
    · exact ((hpks2 a).mp (h2 a haJ)).1 ha
    · rcases List.mem_append.mp hf with hk | hj
      · exact hksnone f hk
      · exact ((hpks2 f).mp (h2 f hj)).2
  · rintro ⟨hnd, h2⟩
    obtain ⟨-, hJ, hdisj⟩ := List.nodup_append.mp hnd
    refine ⟨hJ, fun f hf => (hpks2 f).mpr ⟨fun hk => hdisj hk hf, ?_⟩⟩
    exact h2 f (List.mem_append.mpr (Or.inr hf))

/-- The loop succeeds exactly when the fingerprints of the remaining
backends are pairwise distinct and none is already recorded. -/
theorem convertLoop_isOk (auths : List (String × SignerKeys)) :
    ∀ pks acc, (convertLoop auths pks acc).isOk = true ↔
      ((auths.flatMap (fun p => fps p.2)).Nodup ∧
        ∀ f ∈ auths.flatMap (fun p => fps p.2), pkGet pks f = none) := by
  induction auths with
  | nil => intro pks acc; simp [convertLoop, Except.isOk, Except.toBool]
  | cons p rest ih =>
    intro pks acc
    obtain ⟨name, s⟩ := p
    have hfl : ((name, s) :: rest).flatMap (fun p => fps p.2) =
        fps s ++ rest.flatMap (fun p => fps p.2) := by
      simp [List.flatMap_cons]
    rw [hfl]
    rcases hu : s.user_hash with - | u <;> rcases hh : s.host_hash with - | h
    · -- no SSH keys at all: nothing recorded
      rw [show convertLoop ((name, s) :: rest) pks acc =
          convertLoop rest pks (acc ++ [(name, s)]) by
        simp [convertLoop, isIdentical, hu, hh, recordKey]]
      rw [ih pks (acc ++ [(name, s)]), show fps s = [] by simp [fps, hu, hh]]
      simp
    · -- host key only
      have hfps : fps s = [h] := by simp [fps, hu, hh]
      rw [hfps]
      rcases hg : pkGet pks h with - | ex
      · rw [show convertLoop ((name, s) :: rest) pks acc =
            convertLoop rest ((h, name) :: pks) (acc ++ [(name, s)]) by
          simp [convertLoop, isIdentical, hu, hh, recordKey, hg]]
        rw [ih ((h, name) :: pks)]
        refine step_iff [h] _ pks ((h, name) :: pks) (fun f => ?_) (by simp)
          (by simpa using hg)
        rw [pkGet_cons]
        by_cases hhf : h = f <;> simp [hhf, eq_comm]
      · rw [show convertLoop ((name, s) :: rest) pks acc =
            .error (.DuplicatedKey name ex) by
          simp [convertLoop, isIdentical, hu, hh, recordKey, hg]]
        simp only [Except.isOk, Except.toBool]
        refine iff_of_false (by simp) ?_
        rintro ⟨-, h2⟩
        have := h2 h (by simp)
        simp [hg] at this
    · -- user key only
      have hfps : fps s = [u] := by simp [fps, hu, hh]
      rw [hfps]
      rcases hg : pkGet pks u with - | ex
      · rw [show convertLoop ((name, s) :: rest) pks acc =
            convertLoop rest ((u, name) :: pks) (acc ++ [(name, s)]) by
          simp [convertLoop, isIdentical, hu, hh, recordKey, hg]]
        rw [ih ((u, name) :: pks)]
        refine step_iff [u] _ pks ((u, name) :: pks) (fun f => ?_) (by simp)
          (by simpa using hg)
        rw [pkGet_cons]
        by_cases huf : u = f <;> simp [huf, eq_comm]
      · rw [show convertLoop ((name, s) :: rest) pks acc =
            .error (.DuplicatedKey name ex) by
          simp [convertLoop, isIdentical, hu, hh, recordKey, hg]]
        simp only [Except.isOk, Except.toBool]
        refine iff_of_false (by simp) ?_
        rintro ⟨-, h2⟩
        have := h2 u (by simp)
        simp [hg] at this
    · -- both user and host keys
      have hfps : fps s = [u, h] := by simp [fps, hu, hh]
      rw [hfps]
      by_cases hid : u = h
      · subst hid
        rw [show convertLoop ((name, s) :: rest) pks acc =
            .error (.IdenticalUserAndHostKey name) by
          simp [convertLoop, isIdentical, hu, hh]]
        simp only [Except.isOk, Except.toBool]
        exact iff_of_false (by simp) (by rintro ⟨hnd, -⟩; simp at hnd)
      · rcases hgu : pkGet pks u with - | ex
        · have hgu2 : pkGet ((u, name) :: pks) h = pkGet pks h := by
            rw [pkGet_cons, if_neg hid]
          rcases hgh : pkGet pks h with - | ex
          · rw [show convertLoop ((name, s) :: rest) pks acc =
                convertLoop rest ((h, name) :: (u, name) :: pks) (acc ++ [(name, s)]) by
              simp [convertLoop, isIdentical, hu, hh, recordKey, hgu, hgu2, hgh,
                show ¬ u == h by simpa using hid]]
            rw [ih ((h, name) :: (u, name) :: pks)]
            refine step_iff [u, h] _ pks ((h, name) :: (u, name) :: pks) (fun f => ?_)
              (by simp [hid]) ?_
            · rw [pkGet_cons, pkGet_cons]
              by_cases hhf : h = f <;> by_cases huf : u = f <;>
                simp [hhf, huf, eq_comm]
            · intro f hf
              simp only [List.mem_cons, List.not_mem_nil, or_false] at hf
              rcases hf with rfl | rfl
              · exact hgu
              · exact hgh
          · rw [show convertLoop ((name, s) :: rest) pks acc =
                .error (.DuplicatedKey name ex) by
              simp [convertLoop, isIdentical, hu, hh, recordKey, hgu, hgu2, hgh,
                show ¬ u == h by simpa using hid]]
            simp only [Except.isOk, Except.toBool]
            refine iff_of_false (by simp) ?_
            rintro ⟨-, h2⟩
            have := h2 h (by simp)
            simp [hgh] at this
        · rw [show convertLoop ((name, s) :: rest) pks acc =
              .error (.DuplicatedKey name ex) by
            simp [convertLoop, isIdentical, hu, hh, recordKey, hgu,
              show ¬ u == h by simpa using hid]]
          simp only [Except.isOk, Except.toBool]
          refine iff_of_false (by simp) ?_
          rintro ⟨-, h2⟩
          have := h2 u (by simp)
          simp [hgu] at this

/-- `recordKey` can only fail with `DuplicatedKey(current, existing)`
for a configured fingerprint already present in the map. -/
theorem recordKey_error (n : String) (pks : List (String × String)) (o : Option String)
    (e : SigningError) (h : recordKey n pks o = .error e) :
    ∃ hash ex, o = some hash ∧ pkGet pks hash = some ex ∧ e = .DuplicatedKey n ex := by
  cases o with
  | none => simp [recordKey] at h
  | some hash =>
    rw [recordKey] at h
    rcases hg : pkGet pks hash with - | ex <;> rw [hg] at h
    · simp at h
    · exact ⟨hash, ex, rfl, hg, (Except.error.inj h).symm⟩

/-- `recordKey` success either records nothing (no key configured) or
prepends the new fingerprint. -/
theorem recordKey_ok (n : String) (pks : List (String × String)) (o : Option String)
    (pks1 : List (String × String)) (h : recordKey n pks o = .ok pks1) :
    (o = none ∧ pks1 = pks) ∨
      ∃ hash, o = some hash ∧ pkGet pks hash = none ∧ pks1 = (hash, n) :: pks := by
  cases o with
  | none => exact Or.inl ⟨rfl, (Except.ok.inj h).symm⟩
  | some hash =>
    rw [recordKey] at h
    rcases hg : pkGet pks hash with - | ex <;> rw [hg] at h
    · exact Or.inr ⟨hash, rfl, hg, (Except.ok.inj h).symm⟩
    · simp at h

/-- `isIdentical` holds exactly for a backend configured with the same
fingerprint in both roles. -/
theorem isIdentical_iff (s : SignerKeys) :
    isIdentical s = true ↔ ∃ f, s.user_hash = some f ∧ s.host_hash = some f := by
  rcases hu : s.user_hash with - | u <;> rcases hh : s.host_hash with - | h
  · simp [isIdentical, hu, hh]
  · simp [isIdentical, hu, hh]
  · simp [isIdentical, hu, hh]
  · simp only [isIdentical, hu, hh, beq_iff_eq, Option.some.injEq]
    constructor
    · intro he
      exact ⟨u, rfl, he.symm⟩
    · rintro ⟨f, rfl, h2⟩
      exact h2.symm

/-- A fingerprint seen through one `pkGet` extension step. -/
theorem pkGet_cons_some (k n f b : String) (pks : List (String × String))
    (h : pkGet ((k, n) :: pks) f = some b) :
    (k = f ∧ n = b) ∨ pkGet pks f = some b := by
  rw [pkGet_cons] at h
  by_cases hkf : k = f
  · rw [if_pos hkf] at h
    exact Or.inl ⟨hkf, Option.some.inj h⟩
  · rw [if_neg hkf] at h
    exact Or.inr h

/-- An `IdenticalUserAndHostKey` failure of the loop names an input
backend whose user and host fingerprints coincide. -/
theorem convertLoop_identical (auths : List (String × SignerKeys)) :
    ∀ pks acc a, convertLoop auths pks acc = .error (.IdenticalUserAndHostKey a) →
      ∃ s f, (a, s) ∈ auths ∧ s.user_hash = some f ∧ s.host_hash = some f := by
  induction auths with
  | nil => intro pks acc a h; simp [convertLoop] at h
  | cons p rest ih =>
    intro pks acc a h
    obtain ⟨name, s⟩ := p
    rw [convertLoop] at h
    by_cases hid : isIdentical s
    · rw [if_pos hid] at h
      obtain rfl : name = a := by
        have := Except.error.inj h
        exact SigningError.IdenticalUserAndHostKey.inj this
      obtain ⟨f, hf⟩ := (isIdentical_iff s).mp hid
      exact ⟨s, f, List.Mem.head _, hf⟩
    · rw [if_neg hid] at h
      split at h
      · rename_i e1 hr1
        obtain ⟨hash, ex, -, -, he⟩ := recordKey_error _ _ _ _ hr1
        subst he
        exact absurd (Except.error.inj h) (by simp)
      · rename_i pks1 hr1
        split at h
        · rename_i e2 hr2
          obtain ⟨hash, ex, -, -, he⟩ := recordKey_error _ _ _ _ hr2
          subst he
          exact absurd (Except.error.inj h) (by simp)
        · rename_i pks2 hr2
          obtain ⟨s2, f, hmem, hf⟩ := ih pks2 (acc ++ [(name, s)]) a h
          exact ⟨s2, f, List.Mem.tail _ hmem, hf⟩

/-- A `DuplicatedKey(a, b)` failure of the loop names a backend `a`
among the inputs holding a fingerprint `f` that either is already in
the accumulated map under owner `b` or belongs to another input
backend named `b`. -/
theorem convertLoop_dup (auths : List (String × SignerKeys)) :
    ∀ pks acc a b, convertLoop auths pks acc = .error (.DuplicatedKey a b) →
      ∃ sa f, (a, sa) ∈ auths ∧ f ∈ fps sa ∧
        (pkGet pks f = some b ∨ ∃ sb, (b, sb) ∈ auths ∧ f ∈ fps sb) := by
  induction auths with
  | nil => intro pks acc a b h; simp [convertLoop] at h
  | cons p rest ih =>
    intro pks acc a b h
    obtain ⟨name, s⟩ := p
    rw [convertLoop] at h
    by_cases hid : isIdentical s
    · rw [if_pos hid] at h
      simp at h
    · rw [if_neg hid] at h
      split at h
      · rename_i e1 hr1
        obtain ⟨hash, ex, ho, hg, he⟩ := recordKey_error _ _ _ _ hr1
        subst he
        obtain ⟨rfl, rfl⟩ : name = a ∧ ex = b := by
          have := Except.error.inj h
          exact SigningError.DuplicatedKey.inj this
        exact ⟨s, hash, List.Mem.head _, by simp [fps, ho], Or.inl hg⟩
      · rename_i pks1 hr1
        split at h
        · rename_i e2 hr2
          obtain ⟨hash, ex, ho, hg, he⟩ := recordKey_error _ _ _ _ hr2
          subst he
          obtain ⟨rfl, rfl⟩ : name = a ∧ ex = b := by
            have := Except.error.inj h
            exact SigningError.DuplicatedKey.inj this
          refine ⟨s, hash, List.Mem.head _, by simp [fps, ho], ?_⟩
          rcases recordKey_ok _ _ _ _ hr1 with ⟨-, rfl⟩ | ⟨uhash, hu, -, rfl⟩
          · exact Or.inl hg
          · rcases pkGet_cons_some _ _ _ _ _ hg with ⟨rfl, rfl⟩ | hg2
            · exact Or.inr ⟨s, List.Mem.head _, by simp [fps, hu]⟩
            · exact Or.inl hg2
        · rename_i pks2 hr2
          obtain ⟨sa, f, hmem, hf, hright⟩ := ih pks2 (acc ++ [(name, s)]) a b h
          refine ⟨sa, f, List.Mem.tail _ hmem, hf, ?_⟩
          rcases hright with hg | ⟨sb, hmemb, hfb⟩
          · -- trace the map entry back through the up-to-two extensions
            have step : pkGet pks1 f = some b ∨ (b = name ∧ f ∈ fps s) := by
              rcases recordKey_ok _ _ _ _ hr2 with ⟨-, heq⟩ | ⟨hash, hh, -, heq⟩
              · rw [heq] at hg
                exact Or.inl hg
              · rw [heq] at hg
                rcases pkGet_cons_some _ _ _ _ _ hg with ⟨rfl, rfl⟩ | hg3
                · exact Or.inr ⟨rfl, by simp [fps, hh]⟩
                · exact Or.inl hg3
            rcases step with hg1 | ⟨rfl, hfs⟩
            · rcases recordKey_ok _ _ _ _ hr1 with ⟨-, rfl⟩ | ⟨hash, hu, -, rfl⟩
              · exact Or.inl hg1
              · rcases pkGet_cons_some _ _ _ _ _ hg1 with ⟨rfl, rfl⟩ | hg2
                · exact Or.inr ⟨s, List.Mem.head _, by simp [fps, hu]⟩
                · exact Or.inl hg2
            · exact Or.inr ⟨s, List.Mem.head _, hfs⟩
          · exact Or.inr ⟨sb, List.Mem.tail _ hmemb, hfb⟩

/-- One backend's fingerprints repeat only when both roles share one
fingerprint. -/
theorem fps_nodup_iff (s : SignerKeys) :
    (fps s).Nodup ↔ ∀ u h, s.user_hash = some u → s.host_hash = some h → u ≠ h := by
  rcases hu : s.user_hash with - | u <;> rcases hh : s.host_hash with - | h <;>
    simp [fps, hu, hh]

/-- `convert_to_signing_mechanism` succeeds exactly when the loop
does, and fails with exactly the loop's error. -/
theorem convert_eq_loop (d : String) (auths : List (String × SignerKeys)) :
    (convert_to_signing_mechanism d auths).isOk = (convertLoop auths [] []).isOk ∧
    ∀ e, convert_to_signing_mechanism d auths = .error e ↔
      convertLoop auths [] [] = .error e := by
  unfold convert_to_signing_mechanism
  rcases h : convertLoop auths [] [] with e0 | m <;>
    simp [h, Except.isOk, Except.toBool]

/-- C5: converting a signing configuration succeeds iff every backend
with both SSH keys uses two distinct fingerprints and no fingerprint
is shared between two backends; an `IdenticalUserAndHostKey` failure
names a backend whose two roles share a fingerprint, and a
`DuplicatedKey` failure names two backends holding a common
fingerprint. -/
theorem c5_registry_key_uniqueness (default_authority : String)
    (auths : List (String × SignerKeys)) :
    ((convert_to_signing_mechanism default_authority auths).isOk = true ↔
      ((∀ p ∈ auths, ∀ u h, p.2.user_hash = some u → p.2.host_hash = some h → u ≠ h) ∧
        auths.Pairwise (fun p q => (fps p.2).Disjoint (fps q.2)))) ∧
    (∀ a, convert_to_signing_mechanism default_authority auths =
        .error (.IdenticalUserAndHostKey a) →
      ∃ s f, (a, s) ∈ auths ∧ s.user_hash = some f ∧ s.host_hash = some f) ∧
    (∀ a b, convert_to_signing_mechanism default_authority auths =
        .error (.DuplicatedKey a b) →
      ∃ sa sb f, (a, sa) ∈ auths ∧ (b, sb) ∈ auths ∧ f ∈ fps sa ∧ f ∈ fps sb) := by
  obtain ⟨hok, herr⟩ := convert_eq_loop default_authority auths
  refine ⟨?_, ?_, ?_⟩
  · rw [hok, convertLoop_isOk auths [] [], List.nodup_flatMap]
    simp only [pkGet, implies_true, and_true]
    constructor
    · rintro ⟨h1, h2⟩
      exact ⟨fun p hp => (fps_nodup_iff p.2).mp (h1 p hp), h2⟩
    · rintro ⟨h1, h2⟩
      exact ⟨fun p hp => (fps_nodup_iff p.2).mpr (h1 p hp), h2⟩
  · intro a h
    exact convertLoop_identical auths [] [] a ((herr _).mp h)
  · intro a b h
    obtain ⟨sa, f, hmem, hf, hright⟩ := convertLoop_dup auths [] [] a b ((herr _).mp h)
    rcases hright with hg | ⟨sb, hmemb, hfb⟩
    · simp [pkGet] at hg
    · exact ⟨sa, sb, f, hmem, hmemb, hf, hfb⟩

/-- C5 witness: the spec's scenario S8 — two authorities backed by the
same user key — fails startup with an error naming both authorities. -/
theorem c5_witness :
    ∃ sa sb f,
      ("a2", sa) ∈ [("a1", (⟨some "SHA256:K", none⟩ : SignerKeys)),
        ("a2", ⟨some "SHA256:K", none⟩)] ∧
      ("a1", sb) ∈ [("a1", (⟨some "SHA256:K", none⟩ : SignerKeys)),
        ("a2", ⟨some "SHA256:K", none⟩)] ∧
      f ∈ fps sa ∧ f ∈ fps sb := by
  exact (c5_registry_key_uniqueness "a1"
    [("a1", ⟨some "SHA256:K", none⟩), ("a2", ⟨some "SHA256:K", none⟩)]).2.2 "a2" "a1" rfl

/-- C7 witness: the cache miss path renders `"a k1\nb k2"` (9 bytes),
compresses it, refreshes the cache with expiry `200 + 60` and returns
the fresh bytes. -/
theorem c7_witness :
    allowed_signers c7wCtx =
      (.ok [9], ⟨[("carol@example", 230)], 16⟩, ⟨[9], 260⟩) := by
  have h := (c7_allowed_signers_cache c7wCtx ⟨["carol@example"], 0⟩ 200
    rfl rfl rfl rfl rfl (by decide)).2.1 (by decide) [("a", "k1"), ("b", "k2")] [9]
    rfl rfl
  exact h.trans (by decide)

/-- C3 counterexample: the window check is strict in both comparisons,
so a request with `valid_before = valid_after` (clock at 500) and a
request with `current_time = valid_before` (clock at 2000) are both
accepted, not rejected with `BadCertOptions`. -/
theorem c3_counterexample :
    (certificate { baseCertCtx with
        clock := some 500
        request := { baseCertCtx.request with valid_after := 1000, valid_before := 1000 } } =
      .ok baseSuccessResp) ∧
    (certificate { baseCertCtx with clock := some 2000 } = .ok baseSuccessResp) ∧
    baseSuccessResp.error_code ≠ .BadCertOptions := by
  refine ⟨rfl, rfl, by decide⟩

/-- C3 (amended): after challenge validation succeeds the endpoint
returns `BadCertOptions` whenever `valid_before < valid_after`
(strictly) or `current_time > valid_before` (strictly); conversely —
for a well-formed cert type, a passing re-parse self-check and an
authorizer that does not itself answer `BadCertOptions` — it never
returns `BadCertOptions` when neither strict inequality holds, so both
boundary requests (`valid_before = valid_after` with
`now ≤ valid_before`, and `current_time = valid_before` with
`valid_after ≤ valid_before`) are not rejected. -/
theorem c3_validity_window :
    (∀ (c : CertCtx) pk ids rs ts,
      c.remote_addr_present = true → c.challenge_present = true →
      c.peer_certs_present = true → c.validate = .ok (pk, ids, rs) →
      c.clock = some ts →
      (c.request.valid_before < c.request.valid_after ∨ ts > c.request.valid_before) →
      certificate c = .ok (create_response .BadCertOptions)) ∧
    (∀ (c : CertCtx) pk ids rs ts ct,
      c.remote_addr_present = true → c.challenge_present = true →
      c.peer_certs_present = true → c.validate = .ok (pk, ids, rs) →
      c.clock = some ts →
      certTypeOfNat c.request.cert_type = some ct →
      (∀ s, c.reparse_ok s = true) →
      c.authorize ≠ .error .BadCertOptions →
      ¬ (c.request.valid_before < c.request.valid_after ∨ ts > c.request.valid_before) →
      certificate c ≠ .ok (create_response .BadCertOptions)) ∧
    (∀ (c : CertCtx) pk ids rs ts ct,
      c.remote_addr_present = true → c.challenge_present = true →
      c.peer_certs_present = true → c.validate = .ok (pk, ids, rs) →
      c.clock = some ts →
      certTypeOfNat c.request.cert_type = some ct →
      (∀ s, c.reparse_ok s = true) →
      c.authorize ≠ .error .BadCertOptions →
      c.request.valid_before = c.request.valid_after → ts ≤ c.request.valid_before →
      certificate c ≠ .ok (create_response .BadCertOptions)) ∧
    (∀ (c : CertCtx) pk ids rs ct,
      c.remote_addr_present = true → c.challenge_present = true →
      c.peer_certs_present = true → c.validate = .ok (pk, ids, rs) →
      c.clock = some c.request.valid_before →
      certTypeOfNat c.request.cert_type = some ct →
      (∀ s, c.reparse_ok s = true) →
      c.authorize ≠ .error .BadCertOptions →
      c.request.valid_after ≤ c.request.valid_before →
      certificate c ≠ .ok (create_response .BadCertOptions)) := by
  have hacc : ∀ (c : CertCtx) pk ids rs ts ct,
      c.remote_addr_present = true → c.challenge_present = true →
      c.peer_certs_present = true → c.validate = .ok (pk, ids, rs) →
      c.clock = some ts →
      certTypeOfNat c.request.cert_type = some ct →
      (∀ s, c.reparse_ok s = true) →
      c.authorize ≠ .error .BadCertOptions →
      ¬ (c.request.valid_before < c.request.valid_after ∨ ts > c.request.valid_before) →
      certificate c ≠ .ok (create_response .BadCertOptions) := by
    intro c pk ids rs ts ct hra hch hpp hval hclock hct hrep hab hcond hcontra
    simp only [certificate, hra, hch, hpp, hval, hclock, hct, hrep, hcond, not_true,
      not_false_eq_true, false_or, or_false, if_false, ite_false, if_neg hcond] at hcontra
    repeat' split at hcontra
    all_goals
      first
        | exact Outcome.noConfusion hcontra
        | exact RusticaServerError.noConfusion
            (congrArg CertificateResponse.error_code (Outcome.ok.inj hcontra))
        | (have he := congrArg CertificateResponse.error_code (Outcome.ok.inj hcontra)
           simp only [create_response] at he
           subst he
           exact hab (by assumption))
  refine ⟨?_, hacc, ?_, ?_⟩
  · intro c pk ids rs ts hra hch hpp hval hclock hcond
    simp [certificate, hra, hch, hpp, hval, hclock, hcond]
  · intro c pk ids rs ts ct hra hch hpp hval hclock hct hrep hab hvb hts
    exact hacc c pk ids rs ts ct hra hch hpp hval hclock hct hrep hab (by omega)
  · intro c pk ids rs ct hra hch hpp hval hclock hct hrep hab hle
    exact hacc c pk ids rs c.request.valid_before ct hra hch hpp hval hclock hct hrep
      hab (by omega)

/-- C3 witness: a request whose end precedes its start
(`valid_before = 900 < valid_after = 1000`) is rejected with
`BadCertOptions`, while both strict boundary cases —
`valid_before = valid_after` with the clock at 500, and the clock
exactly at `valid_before` — are not rejected. -/
theorem c3_witness :
    certificate { baseCertCtx with
        request := { baseCertCtx.request with valid_after := 1000, valid_before := 900 } } =
      .ok (create_response .BadCertOptions) ∧
    certificate { baseCertCtx with
        clock := some 500
        request := { baseCertCtx.request with valid_after := 1000, valid_before := 1000 } } ≠
      .ok (create_response .BadCertOptions) ∧
    certificate { baseCertCtx with clock := some 2000 } ≠
      .ok (create_response .BadCertOptions) := by
  have h := c3_validity_window
  refine ⟨h.1 _ ⟨"SHA256:user"⟩ ["alice@example"] none 1500 rfl rfl rfl rfl rfl
    (by decide), ?_, ?_⟩
  · exact h.2.2.1 _ ⟨"SHA256:user"⟩ ["alice@example"] none 500 .User
      rfl rfl rfl rfl rfl rfl (fun s => rfl) (by simp [baseCertCtx]) rfl (by decide)
  · exact h.2.2.2 _ ⟨"SHA256:user"⟩ ["alice@example"] none .User
      rfl rfl rfl rfl rfl rfl (fun s => rfl) (by simp [baseCertCtx]) (by decide)

/-- C10: when every stage up to signing succeeds but the signing
backend fails, the endpoint returns an inline `CertificateResponse`
(not a transport error) with an empty certificate and error code
`BadChallenge`. -/
theorem c10_signing_failure (c : CertCtx) (pk : PublicKey) (ids : List String)
    (rs : Option CertificateRefreshSettings) (ts : Nat) (ct : CertType)
    (ca : PublicKey) (authz : Authorization)
    (hra : c.remote_addr_present = true) (hch : c.challenge_present = true)
    (hpp : c.peer_certs_present = true)
    (hval : c.validate = .ok (pk, ids, rs)) (hclock : c.clock = some ts)
    (htime : ¬ (c.request.valid_before < c.request.valid_after ∨
      ts > c.request.valid_before))
    (hct : certTypeOfNat c.request.cert_type = some ct)
    (hca : c.get_signer_public_key
      (if c.request.key_id = "" then c.default_authority else c.request.key_id) ct =
      .ok ca)
    (hauth : c.authorize = .ok authz)
    (hbuild : c.builder_ok = true)
    (hsign : c.sign authz.authority
      (composeSshCert pk ct ca authz (criticalOptions authz c.remote_ip)
        pk.fingerprint) = .error ()) :
    certificate c = .ok (create_response .BadChallenge) ∧
    (create_response .BadChallenge).certificate = "" ∧
    (create_response .BadChallenge).error_code = .BadChallenge := by
  refine ⟨?_, rfl, rfl⟩
  simp [certificate, hra, hch, hpp, hval, hclock, htime, hct, hca, hauth, hbuild, hsign]

/-- C10 witness: `baseCertCtx` with a failing signing backend yields
the inline `BadChallenge` reply. -/
theorem c10_witness :
    certificate c10wCtx = .ok (create_response .BadChallenge) := by
  exact (c10_signing_failure c10wCtx ⟨"SHA256:user"⟩ ["alice@example"] none 1500 .User
    ⟨"SHA256:ca"⟩ { serial := 42, principals := ["alice"], valid_after := 1000
                    valid_before := 2000, extensions := [("permit-pty", "")]
                    force_command := none, force_source_ip := false
                    authority := "backend" }
    rfl rfl rfl rfl rfl (by decide) rfl rfl rfl rfl rfl).1

/-- C8 counterexample: the reissued client certificate is not SAN-less
— `rcgen::CertificateParams::new(mtls_identities)` fills the subject
alternative names with the caller's identities. -/
theorem c8_counterexample :
    certificate c8cexCtx =
      .ok { baseSuccessResp with
        new_client_certificate := "CERTPEM", new_client_key := "KEYPEM" } ∧
    (mintClientParams ["alice@example"]
      { not_after := 1700003600, not_before := 1700000000 }).subject_alt_names =
      ["alice@example"] ∧
    (["alice@example"] : List String) ≠ [] := by
  refine ⟨rfl, rfl, by decide⟩

/-- C8 (amended): whenever challenge validation returns mTLS
reissuance settings and the configured client-authority CA exists, the
successful response carries a non-empty PEM client certificate and a
non-empty PEM private key of a certificate whose CommonName is the
caller's first mTLS identity, whose subject alternative names are the
caller's mTLS identities, and whose `not_before`/`not_after` equal the
reissuance settings. The `rcgen` PEM serializers are not part of the
verified sources; `hkeypem`/`hcertpem` state their contract — a
successful serialization yields a non-empty PEM document — the
counterpart of the Signer contract used for C2. -/
theorem c8_mtls_reissuance (c : CertCtx) (pk : PublicKey) (ids : List String)
    (settings : CertificateRefreshSettings) (ts : Nat) (ct : CertType)
    (ca : PublicKey) (authz : Authorization) (sc : SshCertificate)
    (rc : RcgenCertificate) (pem : String)
    (hra : c.remote_addr_present = true) (hch : c.challenge_present = true)
    (hpp : c.peer_certs_present = true)
    (hval : c.validate = .ok (pk, ids, some settings)) (hclock : c.clock = some ts)
    (htime : ¬ (c.request.valid_before < c.request.valid_after ∨
      ts > c.request.valid_before))
    (hct : certTypeOfNat c.request.cert_type = some ct)
    (hca : c.get_signer_public_key
      (if c.request.key_id = "" then c.default_authority else c.request.key_id) ct =
      .ok ca)
    (hauth : c.authorize = .ok authz)
    (hbuild : c.builder_ok = true)
    (hsign : c.sign authz.authority
      (composeSshCert pk ct ca authz (criticalOptions authz c.remote_ip)
        pk.fingerprint) = .ok sc)
    (hrep : c.reparse_ok (c.serialize sc) = true)
    (hcca : c.get_client_certificate_authority = .ok (some ()))
    (hfp : c.from_params (mintClientParams ids settings) = some rc)
    (hpem : c.serialize_pem_with_signer rc = some pem)
    (hkeypem : ∀ rc2, c.serialize_private_key_pem rc2 ≠ "")
    (hcertpem : ∀ rc2 pem2, c.serialize_pem_with_signer rc2 = some pem2 → pem2 ≠ "") :
    certificate c = .ok
      { certificate := c.serialize sc
        error := ""
        error_code := .Success
        new_client_certificate := pem
        new_client_key := c.serialize_private_key_pem rc } ∧
    pem ≠ "" ∧
    c.serialize_private_key_pem rc ≠ "" ∧
    (mintClientParams ids settings).distinguished_name =
      [("CommonName", ids.headD "")] ∧
    (mintClientParams ids settings).subject_alt_names = ids ∧
    (mintClientParams ids settings).not_before = settings.not_before ∧
    (mintClientParams ids settings).not_after = settings.not_after := by
  refine ⟨?_, hcertpem rc pem hpem, hkeypem rc, rfl, rfl, rfl, rfl⟩
  simp [certificate, hra, hch, hpp, hval, hclock, htime, hct, hca, hauth, hbuild,
    hsign, hrep, hcca, hfp, hpem]

/-- C8 witness: the reissuance scenario of `c8cexCtx`, issued through
the amended theorem: the response carries the (non-empty) PEM pair of
the minted parameters. -/
theorem c8_witness :
    (certificate c8cexCtx =
      .ok { certificate := "SSHCERT:Rustica-JITC-for-SHA256:user"
            error := ""
            error_code := .Success
            new_client_certificate := "CERTPEM"
            new_client_key := "KEYPEM" }) ∧
    ("CERTPEM" : String) ≠ "" ∧
    c8cexCtx.serialize_private_key_pem
      ⟨mintClientParams ["alice@example"]
        { not_after := 1700003600, not_before := 1700000000 }⟩ ≠ "" := by
  have h := c8_mtls_reissuance c8cexCtx ⟨"SHA256:user"⟩ ["alice@example"]
    { not_after := 1700003600, not_before := 1700000000 } 1500 .User ⟨"SHA256:ca"⟩
    { serial := 42, principals := ["alice"], valid_after := 1000
      valid_before := 2000, extensions := [("permit-pty", "")]
      force_command := none, force_source_ip := false, authority := "backend" }
    (composeSshCert ⟨"SHA256:user"⟩ .User ⟨"SHA256:ca"⟩
      { serial := 42, principals := ["alice"], valid_after := 1000
        valid_before := 2000, extensions := [("permit-pty", "")]
        force_command := none, force_source_ip := false, authority := "backend" }
      [] "SHA256:user")
    ⟨mintClientParams ["alice@example"]
      { not_after := 1700003600, not_before := 1700000000 }⟩ "CERTPEM"
    rfl rfl rfl rfl rfl (by decide) rfl rfl rfl rfl rfl rfl rfl rfl rfl
    (fun rc2 => show ("KEYPEM" : String) ≠ "" by decide)
    (fun rc2 pem2 hp => by
      have h2 := Option.some.inj hp
      subst h2
      decide)
  exact ⟨h.1, h.2.1, h.2.2.1⟩

/-- C9 counterexample: a clock read failure in the `challenge` handler
(`SystemTime::now().duration_since(...).expect(...)`) panics instead
of surfacing a response or status; likewise the reissuance branch of
the `certificate` handler panics when `rcgen` certificate minting or
signing fails (both are `unwrap`ed). -/
theorem c9_counterexample :
    ({ baseChallengeCtx with clock := none } : ChallengeCtx).clock = none ∧
    challenge { baseChallengeCtx with clock := none } = .panic ∧
    certificate { c8cexCtx with from_params := fun _ => none } = .panic ∧
    certificate { c8cexCtx with serialize_pem_with_signer := fun _ => none } =
      .panic := by
  exact ⟨rfl, rfl, rfl, rfl⟩

/-- C9 (amended): no error path in the request handlers panics except
the clock read in the `challenge` handler and `rcgen`
client-certificate minting or signing in the `certificate` handler's
reissuance branch: whenever the clock reads and the `rcgen` calls
succeed, neither handler can panic — every other failure is surfaced
as a returned response or status. -/
theorem c9_no_panic :
    (∀ cc : ChallengeCtx, cc.clock ≠ none → challenge cc ≠ .panic) ∧
    (∀ c : CertCtx, (∀ p, c.from_params p ≠ none) →
      (∀ rc, c.serialize_pem_with_signer rc ≠ none) →
      certificate c ≠ .panic) := by
  constructor
  · intro cc hclock
    unfold challenge
    repeat' split
    all_goals simp_all
  · intro c hfp hpem
    unfold certificate
    repeat' split
    all_goals
      repeat'
        first
          | exact absurd (by assumption) (hfp _)
          | exact absurd (by assumption) (hpem _)
          | split
          | simp_all

/-- C9 witness: with a working clock and working `rcgen` calls,
neither handler panics on the concrete scenarios. -/
theorem c9_witness :
    challenge baseChallengeCtx ≠ .panic ∧ certificate c8cexCtx ≠ .panic := by
  have h := c9_no_panic
  exact ⟨h.1 baseChallengeCtx (by simp [baseChallengeCtx]),
    h.2 c8cexCtx (by intro p; simp [c8cexCtx, baseCertCtx])
      (by intro rc; simp [c8cexCtx, baseCertCtx])⟩

/-- The real challenge validation never fails with the `Success`
code. -/
theorem validate_request_ne_error_success (c : ValidateCtx) :
    validate_request c ≠ .error .Success := by
  intro h
  unfold validate_request at h
  repeat' split at h
  all_goals simp_all

/-- C2: every successful certificate response serializes the
certificate composed from the HMAC-attested pubkey and the
authorization result, signed through the authorization-chosen
authority (which may differ from the one the caller requested). The
signing backends (not part of the verified sources) are assumed to
return the submitted certificate with a signature attached, which the
`hsp` hypothesis expresses in this signature-free model. -/
theorem c2_success_response (c : CertCtx) (resp : CertificateResponse)
    (hvs : c.validate ≠ .error .Success)
    (has : c.authorize ≠ .error .Success)
    (hsp : ∀ a cert res, c.sign a cert = .ok res → res = cert)
    (hok : certificate c = .ok resp)
    (herr : resp.error_code = .Success) :
    ∃ pk ids refresh ct ca authz,
      c.validate = .ok (pk, ids, refresh) ∧
      certTypeOfNat c.request.cert_type = some ct ∧
      c.get_signer_public_key
        (if c.request.key_id = "" then c.default_authority else c.request.key_id)
        ct = .ok ca ∧
      c.authorize = .ok authz ∧
      (let cert := composeSshCert pk ct ca authz
        (criticalOptions authz c.remote_ip) pk.fingerprint
       c.sign authz.authority cert = .ok cert ∧
       resp.certificate = c.serialize cert ∧
       cert.key.fingerprint = pk.fingerprint ∧
       cert.key_id = "Rustica-JITC-for-" ++ pk.fingerprint ∧
       cert.serial = authz.serial ∧
       cert.principals = authz.principals ∧
       cert.valid_after = authz.valid_after ∧
       cert.valid_before = authz.valid_before ∧
       cert.critical_options = criticalOptions authz c.remote_ip ∧
       cert.extensions = authz.extensions) := by
  unfold certificate at hok
  repeat'
    first
      | exact Outcome.noConfusion hok
      | split at hok
      | dsimp only at hok
  all_goals rw [← Outcome.ok.inj hok] at herr
  all_goals try simp only [create_response] at herr
  all_goals try exact RusticaServerError.noConfusion herr
  all_goals try
    (subst herr
     first
       | exact absurd (by assumption) hvs
       | exact absurd (by assumption) has)
  all_goals
    (have hsign2 := hsp _ _ _ (show c.sign _ _ = Except.ok _ from by assumption)
     subst hsign2)
  all_goals obtain rfl := Outcome.ok.inj hok
  all_goals
    first
      | exact ⟨_, _, _, _, _, _, by assumption, by assumption,
          by rw [if_pos (show c.request.key_id = "" from by assumption)]
             assumption,
          by assumption,
          by assumption, rfl, rfl, rfl, rfl, rfl, rfl, rfl, rfl, rfl⟩
      | exact ⟨_, _, _, _, _, _, by assumption, by assumption,
          by rw [if_neg (show ¬ c.request.key_id = "" from by assumption)]
             assumption,
          by assumption,
          by assumption, rfl, rfl, rfl, rfl, rfl, rfl, rfl, rfl, rfl⟩

/-- C2 witness: the happy path of `baseCertCtx`, where the
authorization backend chose authority `"backend"` although the caller
requested the default authority `"default"` — and signing was
dispatched on `"backend"`. -/
theorem c2_witness :
    (∃ pk ids refresh ct ca authz,
      baseCertCtx.validate = .ok (pk, ids, refresh) ∧
      certTypeOfNat baseCertCtx.request.cert_type = some ct ∧
      baseCertCtx.get_signer_public_key
        (if baseCertCtx.request.key_id = "" then baseCertCtx.default_authority
          else baseCertCtx.request.key_id) ct = .ok ca ∧
      baseCertCtx.authorize = .ok authz ∧
      (let cert := composeSshCert pk ct ca authz
        (criticalOptions authz baseCertCtx.remote_ip) pk.fingerprint
       baseCertCtx.sign authz.authority cert = .ok cert ∧
       baseSuccessResp.certificate = baseCertCtx.serialize cert ∧
       cert.key.fingerprint = pk.fingerprint ∧
       cert.key_id = "Rustica-JITC-for-" ++ pk.fingerprint ∧
       cert.serial = authz.serial ∧
       cert.principals = authz.principals ∧
       cert.valid_after = authz.valid_after ∧
       cert.valid_before = authz.valid_before ∧
       cert.critical_options = criticalOptions authz baseCertCtx.remote_ip ∧
       cert.extensions = authz.extensions)) ∧
    ("backend" : String) ≠ "default" := by
  refine ⟨c2_success_response baseCertCtx baseSuccessResp
    (by simp [baseCertCtx]) (by simp [baseCertCtx]) ?_ rfl rfl, by decide⟩
  intro a cert res h
  by_cases hb : a = "backend"
  · simp only [baseCertCtx, if_pos hb] at h
    exact (Except.ok.inj h).symm
  · simp [baseCertCtx, if_neg hb] at h

end Rustica

